import Mathlib

/-!
Verification of the SerpAPI Travel MCP server (src/main.py).

The development shallowly embeds the request/response pipeline of the two
tools, `search_flights` and `search_hotels`, together with the shared
request executor `make_serpapi_request`.  Python JSON values are modelled
by the inductive type `Json`; operations of the source that can raise a
Python exception (`dict.get` on a non-dict, `in` on a non-container,
slicing a non-sequence, `keys()` on a non-dict) are modelled in the
`Except String` monad, and the `try/except` blocks of the two tools catch
exactly those errors.  The numeric coercions `int(float(v)) if v else d`
of `search_hotels` are modelled exactly — including the rounding of the
float round-trip (exact only up to `2^53`) and the `OverflowError` raised
beyond double range; since they run before the tool's `try` block, that
exception propagates out of `search_hotels`, whose result type is
therefore `Except String String`.  The HTTP transport is abstracted by an
`HttpOutcome` oracle covering every outcome the source distinguishes:
a 2xx response with a JSON body, a 2xx response whose body fails to parse,
a 4xx/5xx status error (with an optional parsed error body), and any other
request failure (network error, timeout).
-/

set_option maxHeartbeats 1000000
set_option maxRecDepth 65536
set_option exponentiation.threshold 1100

namespace SerpApiTravel

/-- JSON values; the model of the Python objects flowing through the
pipeline (query parameter values, parsed response documents, results). -/
inductive Json where
  | null
  | bool (b : Bool)
  | num (n : Int)
  | str (s : String)
  | arr (elems : List Json)
  | obj (fields : List (String × Json))

/-- Python truthiness (`bool(x)`) of a JSON value: `None`, `False`, `0`,
`""`, `[]` and `` {} `` are falsy, everything else is truthy. -/
def Json.isFalsy : Json → Bool
  | .null => true
  | .bool b => !b
  | .num n => n == 0
  | .str s => s.isEmpty
  | .arr elems => elems.isEmpty
  | .obj fields => fields.isEmpty

/-- Key membership in a dict, as tested by Python `key in data`. -/
def hasKey (fields : List (String × Json)) (k : String) : Bool :=
  fields.any (fun kv => kv.1 == k)

/-- Python substring test `needle in hay` on strings
(the empty needle is contained in every string). -/
def strContains (hay needle : String) : Bool :=
  needle.isEmpty || (hay.splitOn needle).length >= 2

/-- Python `needle in c` for a string needle: key membership for dicts,
element membership for lists, substring test for strings; raises
`TypeError` on non-container values. -/
def pyContainsStr (needle : String) (c : Json) : Except String Bool :=
  match c with
  | .obj fields => .ok (hasKey fields needle)
  | .arr elems => .ok (elems.any (fun e =>
      match e with
      | .str s => s == needle
      | _ => false))
  | .str s => .ok (strContains s needle)
  | _ => .error "TypeError: argument of type is not iterable"

/-- Python `data.get(key, dflt)`: association lookup on a dict, raising
`AttributeError` on any non-dict value. -/
def pyGet (data : Json) (key : String) (dflt : Json) : Except String Json :=
  match data with
  | .obj fields => .ok ((fields.lookup key).getD dflt)
  | _ => .error "AttributeError: object has no attribute get"

/-- Python `list(data.keys())`, raising `AttributeError` on a non-dict. -/
def pyKeys (data : Json) : Except String (List String) :=
  match data with
  | .obj fields => .ok (fields.map (fun kv => kv.1))
  | _ => .error "AttributeError: object has no attribute keys"

/-- Python slice `v[:n]`: a prefix of a list or of a string; raises
`TypeError` on non-subscriptable values. -/
def pySlice (v : Json) (n : Nat) : Except String Json :=
  match v with
  | .arr elems => .ok (.arr (elems.take n))
  | .str s => .ok (.str (s.take n))
  | _ => .error "TypeError: object is not subscriptable"

/-- Decimal digits of `n`, most significant first, pushed onto `acc`
(`natDecAux 0 acc = acc`). -/
def natDecAux (n : Nat) (acc : List Char) : List Char :=
  if h : n = 0 then acc
  else natDecAux (n / 10) (Nat.digitChar (n % 10) :: acc)
termination_by n
decreasing_by exact Nat.div_lt_self (Nat.pos_of_ne_zero h) (by decide)

/-- Decimal rendering of a natural number. -/
def natDec (n : Nat) : String :=
  if n = 0 then "0" else String.mk (natDecAux n [])

/-- Decimal rendering of an integer, as Python `str`/`json.dumps` print it. -/
def intDec : Int → String
  | .ofNat m => natDec m
  | .negSucc m => "-" ++ natDec (m + 1)

/-- JSON string escaping (quotes and backslashes; other characters are
emitted verbatim). -/
def escapeChar (c : Char) : String :=
  if c = '"' then "\\\""
  else if c = '\\' then "\\\\"
  else String.singleton c

/-- Escape a string for inclusion in a JSON document. -/
def escapeStr (s : String) : String :=
  String.join (s.toList.map escapeChar)

mutual

/-- Serialization of a JSON value; models `json.dumps` up to
insignificant whitespace (the source passes `indent=2`, which only
changes whitespace between tokens). -/
def Json.dumps : Json → String
  | .null => "null"
  | .bool true => "true"
  | .bool false => "false"
  | .num n => intDec n
  | .str s => "\"" ++ escapeStr s ++ "\""
  | .arr elems => "[" ++ dumpsElems elems ++ "]"
  | .obj fields => "\x7b" ++ dumpsFields fields ++ "\x7d"

/-- Serialization of the element list of a JSON array. -/
def dumpsElems : List Json → String
  | [] => ""
  | [x] => Json.dumps x
  | x :: y :: rest => Json.dumps x ++ ", " ++ dumpsElems (y :: rest)

/-- Serialization of the field list of a JSON object. -/
def dumpsFields : List (String × Json) → String
  | [] => ""
  | [(k, v)] => "\"" ++ escapeStr k ++ "\": " ++ Json.dumps v
  | (k, v) :: f :: rest =>
      "\"" ++ escapeStr k ++ "\": " ++ Json.dumps v ++ ", " ++ dumpsFields (f :: rest)

end

/-- Python `str()` of a JSON value, as interpolated into f-strings by the
source (container rendering approximated by JSON serialization; Python
`repr` quoting of nested strings differs only in quote style). -/
def pyStr : Json → String
  | .null => "None"
  | .bool true => "True"
  | .bool false => "False"
  | .num n => intDec n
  | .str s => s
  | .arr elems => Json.dumps (.arr elems)
  | .obj fields => Json.dumps (.obj fields)

/-- The outcome of the single upstream HTTP GET, as the source
distinguishes outcomes: a 2xx response whose body parses as JSON
(`success`), a 2xx response whose body fails to parse (`badBody`, carrying
the parse-exception text), a 4xx/5xx response (`statusError`, carrying the
status code and the error body parsed as JSON when it parses at all), and
any other failure of the request (`requestFailure`: network error,
timeout, carrying the exception text). -/
inductive HttpOutcome where
  | success (body : Json)
  | badBody (emsg : String)
  | statusError (status : Nat) (errBody : Option Json)
  | requestFailure (emsg : String)

/-- Models `str(e)` for an `httpx.HTTPStatusError`: the library renders the
status code and the request URL in the exception text. -/
def httpStatusStr (status : Nat) : String :=
  "HTTP status error " ++ natDec status ++ " for url https://serpapi.com/search"

/-- The error text produced for a 4xx/5xx upstream response
(src/main.py lines 68-75): when the error body parses as a JSON dict, the
value of its `error` field (or `str(e)` when absent) prefixed with
"SerpAPI error: "; when the body fails to parse as JSON, or parses as a
non-dict (whose `.get` raises, landing in the bare `except` clause), the
generic "HTTP error occurred: " message embedding `str(e)`. -/
def statusErrorMsg (status : Nat) (errBody : Option Json) : String :=
  match errBody with
  | some (.obj fields) =>
      "SerpAPI error: " ++ pyStr ((fields.lookup "error").getD (.str (httpStatusStr status)))
  | some _ => "HTTP error occurred: " ++ httpStatusStr status
  | none => "HTTP error occurred: " ++ httpStatusStr status

/-- The error message returned when no API credential is configured
(src/main.py line 52). -/
def apiKeyMissingMsg : String :=
  "SERPAPI_API_KEY environment variable is not set. Please add it to your .env file or configuration."

/-- Python falsiness of `os.environ.get('SERPAPI_API_KEY')`: the variable
is unset (`None`) or set to the empty string. -/
def credFalsy : Option String → Bool
  | none => true
  | some s => s.isEmpty

/-- Result of the request executor: the document it returns (the parsed
response or an error document) together with the queries actually
dispatched to the network transport (empty when it short-circuits). -/
structure ExecResult where
  data : Json
  sentQueries : List (List (String × Json))

/-- `make_serpapi_request` (src/main.py lines 46-78): injects the API
credential into `params`; if the credential is falsy, returns an error
document without any network call; otherwise performs the single GET and
classifies its outcome.  (The shapers never put an `api_key` entry in
`params`, so appending the entry models the dict assignment.) -/
def make_serpapi_request (params : List (String × Json)) (apiKey : Option String)
    (outcome : HttpOutcome) : ExecResult :=
  let fullParams := params ++
    [("api_key", match apiKey with | none => Json.null | some k => Json.str k)]
  if credFalsy apiKey then
    { data := .obj [("error", .str apiKeyMissingMsg)], sentQueries := [] }
  else
    match outcome with
    | .success body =>
        { data := body, sentQueries := [fullParams] }
    | .badBody emsg =>
        { data := .obj [("error", .str ("Request failed: " ++ emsg))],
          sentQueries := [fullParams] }
    | .statusError status errBody =>
        { data := .obj [("error", .str (statusErrorMsg status errBody))],
          sentQueries := [fullParams] }
    | .requestFailure emsg =>
        { data := .obj [("error", .str ("Request failed: " ++ emsg))],
          sentQueries := [fullParams] }

/-- Caller-facing parameters of `search_flights` (src/main.py lines 81-88),
with the source's defaults. -/
structure FlightInput where
  departure_airport : String
  arrival_airport : String
  outbound_date : String
  return_date : Option String := none
  adults : Int := 1
  children : Int := 0

/-- The upstream query built by `search_flights` (src/main.py lines
105-124): fixed engine/locale/currency fields, the caller's identifiers
and counts, and the trip-type discriminator — Python `if return_date:` is
a truthiness test, so an unset or empty `return_date` selects one-way
(`type = "2"`, no `return_date` key) and a non-empty one selects
round-trip (`type = "1"` plus the `return_date` key). -/
def flightParams (inp : FlightInput) : List (String × Json) :=
  let base : List (String × Json) :=
    [ ("engine", .str "google_flights"),
      ("hl", .str "en"),
      ("gl", .str "us"),
      ("departure_id", .str inp.departure_airport),
      ("arrival_id", .str inp.arrival_airport),
      ("outbound_date", .str inp.outbound_date),
      ("currency", .str "USD"),
      ("adults", .num inp.adults),
      ("children", .num inp.children) ]
  match inp.return_date with
  | some r =>
      if r.isEmpty then base ++ [("type", .str "2")]
      else base ++ [("type", .str "1"), ("return_date", .str r)]
  | none => base ++ [("type", .str "2")]

/-- The diagnostic message of the `other_flights` fallback
(src/main.py line 144). -/
def noBestFlightsMsg : String := "No best flights found, showing other options"

/-- Response interpretation of `search_flights` (src/main.py lines
129-154), inside the `try` block: a falsy document yields the fetch-error
result; a document with an `error` key is passed through; a truthy
`best_flights` value is returned as-is; otherwise a truthy `other_flights`
value is sliced to its first 10 entries under the diagnostic message;
otherwise the "No flights found" diagnostic lists the document's keys.
A `.error` value models a Python exception escaping to the handler. -/
def flightShape (data : Json) : Except String Json :=
  if data.isFalsy then
    .ok (.obj [("error", .str "Unable to fetch flight data")])
  else
    match pyContainsStr "error" data with
    | .error e => .error e
    | .ok true => .ok data
    | .ok false =>
      match pyGet data "best_flights" (.arr []) with
      | .error e => .error e
      | .ok best_flights =>
        if best_flights.isFalsy then
          match pyGet data "other_flights" (.arr []) with
          | .error e => .error e
          | .ok other_flights =>
            if !other_flights.isFalsy then
              match pySlice other_flights 10 with
              | .error e => .error e
              | .ok shown =>
                  .ok (.obj [("message", .str noBestFlightsMsg), ("flights", shown)])
            else
              match pyKeys data with
              | .error e => .error e
              | .ok ks =>
                  .ok (.obj [("message", .str "No flights found"),
                             ("available_keys", .arr (ks.map Json.str))])
        else
          .ok best_flights

/-- The document serialized by `search_flights`: the interpreted response,
or — when interpretation raised — the error document built by the
`except` handler (src/main.py lines 156-158). -/
def flightResultDoc (inp : FlightInput) (apiKey : Option String)
    (outcome : HttpOutcome) : Json :=
  match flightShape (make_serpapi_request (flightParams inp) apiKey outcome).data with
  | .ok doc => doc
  | .error e => .obj [("error", .str ("Flight search failed: " ++ e))]

/-- `search_flights` (src/main.py lines 81-158): the JSON string returned
to the caller. -/
def search_flights (inp : FlightInput) (apiKey : Option String)
    (outcome : HttpOutcome) : String :=
  Json.dumps (flightResultDoc inp apiKey outcome)

/-- Caller-facing parameters of `search_hotels` (src/main.py lines
161-169), with the source's defaults. -/
structure HotelInput where
  location : String
  check_in_date : String
  check_out_date : String
  adults : Int := 1
  children : Int := 0
  rooms : Int := 1
  hotel_class : Option String := none
  sort_by : Int := 8

/-- The least magnitude rejected by CPython `float(v)` on an integer:
`2^1024 - 2^970` is the midpoint between the largest finite IEEE-754
double, `2^1024 - 2^971`, and `2^1024`; magnitudes at or above it round
(ties to even) beyond the largest finite double, and `float()` raises
`OverflowError` instead of returning an infinity. -/
def floatOverflowBound : Nat := 2 ^ 1024 - 2 ^ 970

/-- The value of the IEEE-754 double nearest to `n` (round to nearest,
ties to even): exact for `n ≤ 2^53`; above that, `n` keeps its top 53
bits and the rest round away (`e` is the weight of the trailing part,
`q` the 53-bit significand, `r` the discarded remainder). -/
def roundToDouble (n : Nat) : Nat :=
  if n ≤ 2 ^ 53 then n
  else
    let e := n.log2 + 1 - 53
    let p := 2 ^ e
    let q := n / p
    let r := n % p
    let half := p / 2
    if r < half then q * p
    else if half < r then (q + 1) * p
    else if q % 2 = 0 then q * p
    else (q + 1) * p

/-- Python `int(float(v))` on an integer `v`: the nearest double (whose
value is integral, so the outer `int()` is exact), or the `OverflowError`
raised by `float()` when `|v|` exceeds double range. -/
def pyFloatInt (v : Int) : Except String Int :=
  if v.natAbs < floatOverflowBound then
    if v < 0 then .ok (-(Int.ofNat (roundToDouble v.natAbs)))
    else .ok (Int.ofNat (roundToDouble v.natAbs))
  else
    .error "OverflowError: int too large to convert to float"

/-- Models `int(float(v)) if v else dflt` on an integer input
(src/main.py lines 190-193): `0` is falsy and yields the default with no
conversion; any other value goes through the float round-trip, which may
raise `OverflowError`. -/
def coerceOrDefault (v dflt : Int) : Except String Int :=
  if v = 0 then .ok dflt else pyFloatInt v

/-- The numeric coercions of `search_hotels` (src/main.py lines 190-193),
evaluated in source order; they run before the `try` block, so an
`OverflowError` raised here propagates out of the tool. On success,
returns the input with its numeric fields replaced by their coerced
values. -/
def hotelCoerce (inp : HotelInput) : Except String HotelInput :=
  match coerceOrDefault inp.adults 1 with
  | .error e => .error e
  | .ok adults =>
    match coerceOrDefault inp.children 0 with
    | .error e => .error e
    | .ok children =>
      match coerceOrDefault inp.rooms 1 with
      | .error e => .error e
      | .ok rooms =>
        match coerceOrDefault inp.sort_by 8 with
        | .error e => .error e
        | .ok sort_by =>
            .ok { inp with adults := adults, children := children,
                           rooms := rooms, sort_by := sort_by }

/-- The upstream query built by `search_hotels` (src/main.py lines
195-212) from the already-coerced input: fixed engine/locale/currency
fields, the caller's identifiers, the coerced counts and sort code, and
`hotel_class` only when truthy (absent or empty means the key is
omitted). -/
def hotelParams (inp : HotelInput) : List (String × Json) :=
  let base : List (String × Json) :=
    [ ("engine", .str "google_hotels"),
      ("hl", .str "en"),
      ("gl", .str "us"),
      ("q", .str inp.location),
      ("check_in_date", .str inp.check_in_date),
      ("check_out_date", .str inp.check_out_date),
      ("currency", .str "USD"),
      ("adults", .num inp.adults),
      ("children", .num inp.children),
      ("rooms", .num inp.rooms),
      ("sort_by", .num inp.sort_by) ]
  match inp.hotel_class with
  | some hc => if hc.isEmpty then base else base ++ [("hotel_class", .str hc)]
  | none => base

/-- Response interpretation of `search_hotels` (src/main.py lines
217-235), inside the `try` block: a falsy document yields the fetch-error
result; a document with an `error` key is passed through; a truthy
`properties` value is sliced to its first 5 entries; otherwise the
"No hotels found" diagnostic lists the document's keys. -/
def hotelShape (data : Json) : Except String Json :=
  if data.isFalsy then
    .ok (.obj [("error", .str "Unable to fetch hotel data")])
  else
    match pyContainsStr "error" data with
    | .error e => .error e
    | .ok true => .ok data
    | .ok false =>
      match pyGet data "properties" (.arr []) with
      | .error e => .error e
      | .ok properties =>
        if properties.isFalsy then
          match pyKeys data with
          | .error e => .error e
          | .ok ks =>
              .ok (.obj [("message", .str "No hotels found"),
                         ("available_keys", .arr (ks.map Json.str))])
        else
          pySlice properties 5

/-- The document serialized by `search_hotels` for an already-coerced
input: the interpreted response, or — when interpretation raised — the
error document built by the `except` handler (src/main.py lines
237-239). -/
def hotelResultDoc (inp : HotelInput) (apiKey : Option String)
    (outcome : HttpOutcome) : Json :=
  match hotelShape (make_serpapi_request (hotelParams inp) apiKey outcome).data with
  | .ok doc => doc
  | .error e => .obj [("error", .str ("Hotel search failed: " ++ e))]

/-- `search_hotels` (src/main.py lines 161-239): the numeric coercions of
lines 190-193 run first and outside the `try` block, so `.ok s` is the
JSON string returned to the caller while `.error e` is an exception
(an `OverflowError` from the coercions) propagating out of the tool. -/
def search_hotels (inp : HotelInput) (apiKey : Option String)
    (outcome : HttpOutcome) : Except String String :=
  match hotelCoerce inp with
  | .error e => .error e
  | .ok cin => .ok (Json.dumps (hotelResultDoc cin apiKey outcome))

/-! ### Helper lemmas -/

theorem natDecAux_length_le (n : Nat) :
    ∀ acc : List Char, acc.length ≤ (natDecAux n acc).length := by
  induction n using Nat.strong_induction_on with
  | _ n ih =>
    intro acc
    by_cases h : n = 0
    · rw [natDecAux, dif_pos h]
    · rw [natDecAux, dif_neg h]
      calc acc.length ≤ (Nat.digitChar (n % 10) :: acc).length := by
            simp
        _ ≤ _ := ih (n / 10) (Nat.div_lt_self (Nat.pos_of_ne_zero h) (by decide)) _

theorem natDec_ne_empty (n : Nat) : natDec n ≠ "" := by
  unfold natDec
  by_cases h : n = 0
  · simp [h]
  · rw [if_neg h]
    intro hcon
    have hdata : natDecAux n [] = [] := congrArg String.data hcon
    have h1 : 1 ≤ (natDecAux n []).length := by
      rw [natDecAux, dif_neg h]
      calc 1 = (Nat.digitChar (n % 10) :: ([] : List Char)).length := by simp
        _ ≤ _ := natDecAux_length_le (n / 10) _
    rw [hdata] at h1
    simp at h1

theorem intDec_ne_empty (n : Int) : intDec n ≠ "" := by
  cases n with
  | ofNat m => exact natDec_ne_empty m
  | negSucc m =>
    intro hcon
    have := congrArg String.length hcon
    simp [intDec, String.length_append] at this
    exact absurd this.1 (by decide)

theorem dumps_ne_empty (j : SerpApiTravel.Json) : j.dumps ≠ "" := by
  cases j with
  | null => decide
  | bool b => cases b <;> decide
  | num n => exact intDec_ne_empty n
  | str s =>
    intro hcon
    have := congrArg String.length hcon
    simp [Json.dumps, String.length_append] at this
    exact absurd this.2 (by decide)
  | arr elems =>
    intro hcon
    have := congrArg String.length hcon
    simp [Json.dumps, String.length_append] at this
    exact absurd this.2 (by decide)
  | obj fields =>
    intro hcon
    have := congrArg String.length hcon
    simp [Json.dumps, String.length_append] at this
    exact absurd this.2 (by decide)

theorem pyFloatInt_exact (v : Int) (h : v.natAbs ≤ 2 ^ 53) :
    pyFloatInt v = .ok v := by
  have hb : v.natAbs < floatOverflowBound := lt_of_le_of_lt h (by decide)
  have hr : roundToDouble v.natAbs = v.natAbs := by
    rw [roundToDouble, if_pos h]
  rw [pyFloatInt, if_pos hb, hr]
  cases v with
  | ofNat m =>
    have hnneg : ¬ (Int.ofNat m < 0) := Int.not_lt.mpr (Int.ofNat_nonneg m)
    rw [if_neg hnneg]
    exact rfl
  | negSucc m =>
    rw [if_pos (Int.negSucc_lt_zero m)]
    exact rfl

theorem hotelParams_lookup_sort_by (inp : HotelInput) :
    (hotelParams inp).lookup "sort_by" = some (Json.num inp.sort_by) := by
  cases hhc : inp.hotel_class with
  | none => simp [hotelParams, hhc, List.lookup]
  | some cls =>
    by_cases hemp : cls.isEmpty <;> simp [hotelParams, hhc, hemp, List.lookup]

theorem hotelCoerce_fields (inp cin : HotelInput) (hco : hotelCoerce inp = .ok cin) :
    coerceOrDefault inp.adults 1 = .ok cin.adults ∧
    coerceOrDefault inp.children 0 = .ok cin.children ∧
    coerceOrDefault inp.rooms 1 = .ok cin.rooms ∧
    coerceOrDefault inp.sort_by 8 = .ok cin.sort_by ∧
    cin.location = inp.location ∧
    cin.check_in_date = inp.check_in_date ∧
    cin.check_out_date = inp.check_out_date ∧
    cin.hotel_class = inp.hotel_class := by
  cases ha : coerceOrDefault inp.adults 1 with
  | error e => simp [hotelCoerce, ha] at hco
  | ok a =>
    cases hc : coerceOrDefault inp.children 0 with
    | error e => simp [hotelCoerce, ha, hc] at hco
    | ok c =>
      cases hrm : coerceOrDefault inp.rooms 1 with
      | error e => simp [hotelCoerce, ha, hc, hrm] at hco
      | ok r =>
        cases hs : coerceOrDefault inp.sort_by 8 with
        | error e => simp [hotelCoerce, ha, hc, hrm, hs] at hco
        | ok s =>
          simp only [hotelCoerce, ha, hc, hrm, hs, Except.ok.injEq] at hco
          subst hco
          simp [ha, hc, hrm, hs]

/-- A concrete flight-search input used to instantiate the theorems. -/
def fInp : FlightInput :=
  { departure_airport := "JFK", arrival_airport := "LON",
    outbound_date := "2025-12-15" }

/-- A concrete hotel-search input used to instantiate the theorems. -/
def hInp : HotelInput :=
  { location := "Paris", check_in_date := "2025-12-15",
    check_out_date := "2025-12-20" }

/-- A hotel input whose sort code exceeds IEEE-754 double range, so the
`int(float(sort_by))` coercion raises OverflowError. -/
def hInpOverflow : HotelInput := { hInp with sort_by := Int.ofNat (10 ^ 400) }

/-! ### Claims -/

/-- C1 counterexample: `search_hotels` called with the valid integer input
`sort_by = 10^400` propagates an OverflowError instead of returning a JSON
string — the numeric coercions of src/main.py lines 190-193 run outside
the `try` block, so the exception escapes the tool even though the
upstream outcome would have produced a result. -/
theorem c1_hotel_overflow_counterexample :
    search_hotels hInpOverflow (some "key")
        (.success (.obj [("properties", .arr [.num 1])]))
      = .error "OverflowError: int too large to convert to float" := by
  rfl

/-- C1 (amended): `search_flights` returns, for every caller input and
every outcome of the upstream call, the non-empty serialization of a JSON
document and propagates no exception; `search_hotels` does the same for
every caller input whose numeric parameters survive the
`int(float(.))` coercions performed before its `try` block (when one of
them overflows double range, the OverflowError propagates to the
caller). -/
theorem c1_tools_return_nonempty_json (inp : FlightInput) (hin cin : HotelInput)
    (apiKey : Option String) (outcome : HttpOutcome)
    (hco : hotelCoerce hin = .ok cin) :
    search_flights inp apiKey outcome = Json.dumps (flightResultDoc inp apiKey outcome) ∧
    search_flights inp apiKey outcome ≠ "" ∧
    search_hotels hin apiKey outcome
      = .ok (Json.dumps (hotelResultDoc cin apiKey outcome)) ∧
    Json.dumps (hotelResultDoc cin apiKey outcome) ≠ "" := by
  refine ⟨rfl, dumps_ne_empty (flightResultDoc inp apiKey outcome), ?_,
    dumps_ne_empty (hotelResultDoc cin apiKey outcome)⟩
  rw [search_hotels, hco]

/-- Witness for C1 (amended): concrete inputs whose coercions succeed. -/
theorem c1_tools_return_nonempty_json_witness :
    hotelCoerce hInp = .ok hInp ∧
    search_flights fInp (some "key") (.success (.obj [])) ≠ "" ∧
    search_hotels hInp (some "key") (.success (.obj []))
      = .ok (Json.dumps (hotelResultDoc hInp (some "key") (.success (.obj [])))) ∧
    Json.dumps (hotelResultDoc hInp (some "key") (.success (.obj []))) ≠ "" :=
  ⟨rfl,
   (c1_tools_return_nonempty_json fInp hInp hInp (some "key")
      (.success (.obj [])) rfl).2.1,
   (c1_tools_return_nonempty_json fInp hInp hInp (some "key")
      (.success (.obj [])) rfl).2.2.1,
   (c1_tools_return_nonempty_json fInp hInp hInp (some "key")
      (.success (.obj [])) rfl).2.2.2⟩

/-- C3: Whenever the configured credential is falsy (unset or empty), the
request executor invoked by either tool dispatches zero queries to the
network transport and returns the configuration-error document, which both
tools pass through to the caller. -/
theorem c3_missing_credential_no_network (inp : FlightInput) (hin cin : HotelInput)
    (apiKey : Option String) (outcome : HttpOutcome)
    (h : credFalsy apiKey = true) (hco : hotelCoerce hin = .ok cin) :
    (make_serpapi_request (flightParams inp) apiKey outcome).sentQueries = [] ∧
    (make_serpapi_request (hotelParams cin) apiKey outcome).sentQueries = [] ∧
    (make_serpapi_request (flightParams inp) apiKey outcome).data
      = Json.obj [("error", Json.str apiKeyMissingMsg)] ∧
    (make_serpapi_request (hotelParams cin) apiKey outcome).data
      = Json.obj [("error", Json.str apiKeyMissingMsg)] ∧
    search_flights inp apiKey outcome
      = Json.dumps (Json.obj [("error", Json.str apiKeyMissingMsg)]) ∧
    search_hotels hin apiKey outcome
      = .ok (Json.dumps (Json.obj [("error", Json.str apiKeyMissingMsg)])) := by
  refine ⟨?_, ?_, ?_, ?_, ?_, ?_⟩ <;>
    simp [search_flights, search_hotels, hco, flightResultDoc, hotelResultDoc,
      make_serpapi_request, h, flightShape, hotelShape, Json.isFalsy,
      pyContainsStr, hasKey]

/-- Witness for C3: the unset credential, at concrete inputs and a
would-be-successful transport outcome. -/
theorem c3_missing_credential_no_network_witness :
    credFalsy none = true ∧
    hotelCoerce hInp = .ok hInp ∧
    (make_serpapi_request (flightParams fInp) none
        (.success (.obj [("best_flights", .arr [.num 1])]))).sentQueries = [] ∧
    (make_serpapi_request (hotelParams hInp) none
        (.success (.obj [("best_flights", .arr [.num 1])]))).sentQueries = [] ∧
    search_flights fInp none (.success (.obj [("best_flights", .arr [.num 1])]))
      = Json.dumps (Json.obj [("error", Json.str apiKeyMissingMsg)]) ∧
    search_hotels hInp none (.success (.obj [("best_flights", .arr [.num 1])]))
      = .ok (Json.dumps (Json.obj [("error", Json.str apiKeyMissingMsg)])) :=
  ⟨rfl, rfl,
   (c3_missing_credential_no_network fInp hInp hInp none
      (.success (.obj [("best_flights", .arr [.num 1])])) rfl rfl).1,
   (c3_missing_credential_no_network fInp hInp hInp none
      (.success (.obj [("best_flights", .arr [.num 1])])) rfl rfl).2.1,
   (c3_missing_credential_no_network fInp hInp hInp none
      (.success (.obj [("best_flights", .arr [.num 1])])) rfl rfl).2.2.2.2.1,
   (c3_missing_credential_no_network fInp hInp hInp none
      (.success (.obj [("best_flights", .arr [.num 1])])) rfl rfl).2.2.2.2.2⟩

/-- C4: For every upstream document (dict) with no `error` key whose
`best_flights` entry is a non-empty array `bf`, `search_flights` returns
exactly the serialization of `bf` — unmodified, in full, in order. -/
theorem c4_best_flights_returned_in_full (inp : FlightInput) (apiKey : Option String)
    (fields : List (String × Json)) (bf : List Json)
    (hcred : credFalsy apiKey = false)
    (herr : hasKey fields "error" = false)
    (hbf : fields.lookup "best_flights" = some (.arr bf))
    (hne : bf ≠ []) :
    search_flights inp apiKey (.success (.obj fields)) = Json.dumps (.arr bf) := by
  have hfne : fields ≠ [] := by
    intro hnil
    rw [hnil] at hbf
    simp [List.lookup] at hbf
  simp [search_flights, flightResultDoc, make_serpapi_request, hcred,
    flightShape, Json.isFalsy, pyContainsStr, herr, pyGet, hbf, hne, hfne]

/-- Witness for C4: a two-element `best_flights` array is returned whole. -/
theorem c4_best_flights_returned_in_full_witness :
    credFalsy (some "key") = false ∧
    hasKey [("best_flights", Json.arr [.str "f1", .str "f2"])] "error" = false ∧
    search_flights fInp (some "key")
        (.success (.obj [("best_flights", .arr [.str "f1", .str "f2"])]))
      = Json.dumps (.arr [.str "f1", .str "f2"]) :=
  ⟨rfl, rfl,
   c4_best_flights_returned_in_full fInp (some "key")
     [("best_flights", .arr [.str "f1", .str "f2"])] [.str "f1", .str "f2"]
     rfl rfl rfl (by simp)⟩

/-- C5: For every upstream document (dict) with no `error` key, a falsy
(empty or absent) `best_flights` entry and an `other_flights` array longer
than 10 entries, `search_flights` returns the diagnostic document whose
message is "No best flights found, showing other options" and whose
`flights` field is exactly the first 10 entries of `other_flights`. -/
theorem c5_other_flights_truncated_to_ten (inp : FlightInput) (apiKey : Option String)
    (fields : List (String × Json)) (ofl : List Json)
    (hcred : credFalsy apiKey = false)
    (herr : hasKey fields "error" = false)
    (hbf : ((fields.lookup "best_flights").getD (.arr [])).isFalsy = true)
    (hof : fields.lookup "other_flights" = some (.arr ofl))
    (hlen : 10 < ofl.length) :
    search_flights inp apiKey (.success (.obj fields))
      = Json.dumps (.obj [("message", .str "No best flights found, showing other options"),
                          ("flights", .arr (ofl.take 10))]) ∧
    (ofl.take 10).length = 10 ∧
    ofl.take 10 <+: ofl := by
  have hfne : fields ≠ [] := by
    intro hnil
    rw [hnil] at hof
    simp [List.lookup] at hof
  have hone : ofl ≠ [] := by
    intro hnil
    rw [hnil] at hlen
    simp at hlen
  have hobj : (Json.obj fields).isFalsy = false := by
    simp [Json.isFalsy, hfne]
  have hoflf : (Json.arr ofl).isFalsy = false := by
    simp [Json.isFalsy, hone]
  refine ⟨?_, ?_, List.take_prefix 10 ofl⟩
  · simp [search_flights, flightResultDoc, make_serpapi_request, hcred,
      flightShape, hobj, pyContainsStr, herr, pyGet, hbf, hof, hoflf,
      pySlice, noBestFlightsMsg]
  · rw [List.length_take]
    omega

/-- Witness for C5: an 11-element `other_flights` array is cut to 10. -/
theorem c5_other_flights_truncated_to_ten_witness :
    credFalsy (some "key") = false ∧
    10 < ((List.range 11).map (fun i => Json.num (Int.ofNat i))).length ∧
    search_flights fInp (some "key")
        (.success (.obj [("other_flights", .arr ((List.range 11).map (fun i => Json.num (Int.ofNat i))))]))
      = Json.dumps (.obj [("message", .str "No best flights found, showing other options"),
                          ("flights", .arr (((List.range 11).map (fun i => Json.num (Int.ofNat i))).take 10))]) :=
  ⟨rfl, by simp,
   (c5_other_flights_truncated_to_ten fInp (some "key")
      [("other_flights", .arr ((List.range 11).map (fun i => Json.num (Int.ofNat i))))]
      ((List.range 11).map (fun i => Json.num (Int.ofNat i))) rfl rfl rfl rfl (by simp)).1⟩

/-- C6: For every upstream document (dict) with no `error` key whose
`properties` entry is a non-empty array `ps`, `search_hotels` returns
exactly the first 5 entries of `ps` in order (all of `ps` when it is
shorter than 5). -/
theorem c6_properties_truncated_to_five (inp cin : HotelInput) (apiKey : Option String)
    (fields : List (String × Json)) (ps : List Json)
    (hco : hotelCoerce inp = .ok cin)
    (hcred : credFalsy apiKey = false)
    (herr : hasKey fields "error" = false)
    (hp : fields.lookup "properties" = some (.arr ps))
    (hne : ps ≠ []) :
    search_hotels inp apiKey (.success (.obj fields))
      = .ok (Json.dumps (.arr (ps.take 5))) ∧
    ps.take 5 <+: ps ∧
    (5 ≤ ps.length → (ps.take 5).length = 5) ∧
    (ps.length ≤ 5 → ps.take 5 = ps) := by
  have hfne : fields ≠ [] := by
    intro hnil
    rw [hnil] at hp
    simp [List.lookup] at hp
  refine ⟨?_, List.take_prefix 5 ps, ?_, ?_⟩
  · simp [search_hotels, hco, hotelResultDoc, make_serpapi_request, hcred,
      hotelShape, Json.isFalsy, pyContainsStr, herr, pyGet, hp, hne, hfne,
      pySlice]
  · intro h5
    rw [List.length_take]
    omega
  · intro h5
    exact List.take_of_length_le h5

/-- Witness for C6: an 8-element `properties` array is cut to 5. -/
theorem c6_properties_truncated_to_five_witness :
    credFalsy (some "key") = false ∧
    hotelCoerce hInp = .ok hInp ∧
    search_hotels hInp (some "key")
        (.success (.obj [("properties", .arr ((List.range 8).map (fun i => Json.num (Int.ofNat i))))]))
      = .ok (Json.dumps (.arr (((List.range 8).map (fun i => Json.num (Int.ofNat i))).take 5))) ∧
    5 ≤ ((List.range 8).map (fun i => Json.num (Int.ofNat i))).length ∧
    (((List.range 8).map (fun i => Json.num (Int.ofNat i))).take 5).length = 5 :=
  ⟨rfl, rfl,
   (c6_properties_truncated_to_five hInp hInp (some "key")
      [("properties", .arr ((List.range 8).map (fun i => Json.num (Int.ofNat i))))]
      ((List.range 8).map (fun i => Json.num (Int.ofNat i))) rfl rfl rfl rfl (by simp)).1,
   by simp,
   (c6_properties_truncated_to_five hInp hInp (some "key")
      [("properties", .arr ((List.range 8).map (fun i => Json.num (Int.ofNat i))))]
      ((List.range 8).map (fun i => Json.num (Int.ofNat i))) rfl rfl rfl rfl (by simp)).2.2.1 (by simp)⟩

/-- The hotel input of the `sort_by` counterexample: `sort_by = 0`. -/
def hInpSortZero : HotelInput := { hInp with sort_by := 0 }

/-- C2 counterexample: with `sort_by = 0` the built upstream query does
not carry the caller's value — the truthiness coercion
`int(float(sort_by)) if sort_by else 8` replaces the falsy 0 with the
default 8 before the query is assembled. -/
theorem c2_sort_by_zero_replaced_counterexample :
    hInpSortZero.sort_by = 0 ∧
    hotelCoerce hInpSortZero = .ok { hInpSortZero with sort_by := 8 } ∧
    (hotelParams { hInpSortZero with sort_by := 8 }).lookup "sort_by"
      = some (Json.num 8) ∧
    (hotelParams { hInpSortZero with sort_by := 8 }).lookup "sort_by"
      ≠ some (Json.num 0) := by
  refine ⟨rfl, rfl, rfl, fun hcon => ?_⟩
  have h1 : (hotelParams { hInpSortZero with sort_by := 8 }).lookup "sort_by"
      = some (Json.num 8) := rfl
  have h2 := h1.symm.trans hcon
  simp at h2

/-- C2 (amended): for every call whose numeric coercions succeed and whose
`sort_by` is a nonzero integer preserved by the `int(float(.))`
round-trip — which holds in particular for every nonzero magnitude up to
`2^53` (see `pyFloatInt_exact`), covering the recognized codes 8/3/13 and
far beyond — `search_hotels` forwards exactly the caller's `sort_by` as
the upstream query parameter, with no validation against the recognized
set; the falsy value 0 is replaced by the default 8, and values outside
the round-trip-exact range are rounded to the nearest double or raise
OverflowError. -/
theorem c2_sort_by_forwarded_unvalidated (inp cin : HotelInput)
    (hco : hotelCoerce inp = .ok cin)
    (h0 : inp.sort_by ≠ 0)
    (hexact : pyFloatInt inp.sort_by = .ok inp.sort_by) :
    cin.sort_by = inp.sort_by ∧
    (hotelParams cin).lookup "sort_by" = some (Json.num inp.sort_by) := by
  have hs := (hotelCoerce_fields inp cin hco).2.2.2.1
  rw [coerceOrDefault, if_neg h0, hexact] at hs
  have hsb : cin.sort_by = inp.sort_by := (Except.ok.inj hs).symm
  exact ⟨hsb, by rw [hotelParams_lookup_sort_by, hsb]⟩

/-- The hotel input carrying the unrecognized sort code 42. -/
def hInpSort42 : HotelInput := { hInp with sort_by := 42 }

/-- Witness for C2 (amended): the unrecognized code 42 is forwarded
as-is. -/
theorem c2_sort_by_forwarded_unvalidated_witness :
    hotelCoerce hInpSort42 = .ok hInpSort42 ∧
    hInpSort42.sort_by = 42 ∧
    (42 : Int) ≠ 0 ∧
    pyFloatInt 42 = .ok 42 ∧
    (hotelParams hInpSort42).lookup "sort_by" = some (Json.num 42) :=
  ⟨rfl, rfl, by decide, rfl,
   (c2_sort_by_forwarded_unvalidated hInpSort42 hInpSort42 rfl
      (by decide) rfl).2⟩

/-- The flight input of the `return_date` counterexample: the caller
supplies `return_date` set to the empty string. -/
def fInpEmptyReturn : FlightInput := { fInp with return_date := some "" }

/-- C7 counterexample: with `return_date` set (to the empty string) the
query carries `type = "2"` and no `return_date` key — `if return_date:`
is a truthiness test, not a presence test, so the claim's set-implies-
round-trip direction fails. -/
theorem c7_empty_return_date_counterexample :
    fInpEmptyReturn.return_date = some "" ∧
    (flightParams fInpEmptyReturn).lookup "type" = some (Json.str "2") ∧
    (flightParams fInpEmptyReturn).lookup "return_date" = none :=
  ⟨rfl, rfl, rfl⟩

/-- C7 (amended): the query built by `search_flights` carries
`type = "2"` and no `return_date` key whenever `return_date` is unset or
set to the empty (falsy) string, and carries `type = "1"` together with a
`return_date` key equal to the caller's input whenever `return_date` is
set to a non-empty string. -/
theorem c7_trip_type_discriminator (inp : FlightInput) :
    ((inp.return_date = none ∨ inp.return_date = some "") →
      (flightParams inp).lookup "type" = some (Json.str "2") ∧
      (flightParams inp).lookup "return_date" = none) ∧
    (∀ r : String, inp.return_date = some r → r ≠ "" →
      (flightParams inp).lookup "type" = some (Json.str "1") ∧
      (flightParams inp).lookup "return_date" = some (Json.str r)) := by
  constructor
  · rintro (h | h) <;> exact ⟨by simp [flightParams, h, List.lookup],
      by simp [flightParams, h, List.lookup]⟩
  · intro r hr hne
    have he : r.isEmpty = false := by
      rw [Bool.eq_false_iff]
      intro hemp
      exact hne ((String.isEmpty_iff r).mp hemp)
    exact ⟨by simp [flightParams, hr, he, List.lookup],
      by simp [flightParams, hr, he, List.lookup]⟩

/-- Witness for C7 (amended): a one-way call and a round-trip call. -/
theorem c7_trip_type_discriminator_witness :
    ((flightParams fInp).lookup "type" = some (Json.str "2") ∧
     (flightParams fInp).lookup "return_date" = none) ∧
    ((flightParams { fInp with return_date := some "2025-12-22" }).lookup "type"
        = some (Json.str "1") ∧
     (flightParams { fInp with return_date := some "2025-12-22" }).lookup "return_date"
        = some (Json.str "2025-12-22")) :=
  ⟨(c7_trip_type_discriminator fInp).1 (Or.inl rfl),
   (c7_trip_type_discriminator { fInp with return_date := some "2025-12-22" }).2
     "2025-12-22" rfl (by decide)⟩

/-- C8: Every upstream 4xx/5xx response makes both tools return the
serialized error document — whose single field is `error` (so it carries
none of `flights`, `properties`, `message`), using the upstream-provided
error text when the error body parses as a JSON dict with an `error`
field, and a generic message embedding the status otherwise. -/
theorem c8_http_status_error_result (inp : FlightInput) (hin cin : HotelInput)
    (apiKey : Option String) (status : Nat) (errBody : Option Json)
    (hcred : credFalsy apiKey = false) (hco : hotelCoerce hin = .ok cin) :
    search_flights inp apiKey (.statusError status errBody)
      = Json.dumps (.obj [("error", .str (statusErrorMsg status errBody))]) ∧
    search_hotels hin apiKey (.statusError status errBody)
      = .ok (Json.dumps (.obj [("error", .str (statusErrorMsg status errBody))])) ∧
    hasKey [("error", Json.str (statusErrorMsg status errBody))] "error" = true ∧
    hasKey [("error", Json.str (statusErrorMsg status errBody))] "flights" = false ∧
    hasKey [("error", Json.str (statusErrorMsg status errBody))] "properties" = false ∧
    hasKey [("error", Json.str (statusErrorMsg status errBody))] "message" = false ∧
    (∀ efields v, errBody = some (.obj efields) → efields.lookup "error" = some v →
        statusErrorMsg status errBody = "SerpAPI error: " ++ pyStr v) ∧
    (errBody = none →
        statusErrorMsg status errBody = "HTTP error occurred: " ++ httpStatusStr status) := by
  refine ⟨?_, ?_, rfl, rfl, rfl, rfl, ?_, ?_⟩
  · simp [search_flights, flightResultDoc, make_serpapi_request, hcred,
      flightShape, Json.isFalsy, pyContainsStr, hasKey]
  · simp [search_hotels, hco, hotelResultDoc, make_serpapi_request, hcred,
      hotelShape, Json.isFalsy, pyContainsStr, hasKey]
  · rintro efields v rfl hv
    simp [statusErrorMsg, hv]
  · rintro rfl
    rfl

/-- Witness for C8: a 404 whose error body carries upstream error text. -/
theorem c8_http_status_error_result_witness :
    credFalsy (some "key") = false ∧
    hotelCoerce hInp = .ok hInp ∧
    search_flights fInp (some "key")
        (.statusError 404 (some (.obj [("error", .str "Invalid API key")])))
      = Json.dumps (.obj [("error",
          .str (statusErrorMsg 404 (some (.obj [("error", .str "Invalid API key")]))))]) ∧
    search_hotels hInp (some "key")
        (.statusError 404 (some (.obj [("error", .str "Invalid API key")])))
      = .ok (Json.dumps (.obj [("error",
          .str (statusErrorMsg 404 (some (.obj [("error", .str "Invalid API key")]))))])) ∧
    statusErrorMsg 404 (some (.obj [("error", .str "Invalid API key")]))
      = "SerpAPI error: " ++ pyStr (.str "Invalid API key") :=
  ⟨rfl, rfl,
   (c8_http_status_error_result fInp hInp hInp (some "key") 404
      (some (.obj [("error", .str "Invalid API key")])) rfl rfl).1,
   (c8_http_status_error_result fInp hInp hInp (some "key") 404
      (some (.obj [("error", .str "Invalid API key")])) rfl rfl).2.1,
   (c8_http_status_error_result fInp hInp hInp (some "key") 404
      (some (.obj [("error", .str "Invalid API key")])) rfl rfl).2.2.2.2.2.2.1
     [("error", .str "Invalid API key")] (.str "Invalid API key") rfl rfl⟩

/-- C9: A 2xx upstream response whose parsed body is falsy (in particular
the empty object) makes both tools return the "Unable to fetch ... data"
error result — not the "No flights/hotels found" diagnostic — because the
`if not data:` check cannot tell an empty document from an absent one. -/
theorem c9_falsy_document_fetch_error (inp : FlightInput) (hin cin : HotelInput)
    (apiKey : Option String) (body : Json)
    (hcred : credFalsy apiKey = false) (hfalsy : body.isFalsy = true)
    (hco : hotelCoerce hin = .ok cin) :
    search_flights inp apiKey (.success body)
      = Json.dumps (.obj [("error", .str "Unable to fetch flight data")]) ∧
    search_hotels hin apiKey (.success body)
      = .ok (Json.dumps (.obj [("error", .str "Unable to fetch hotel data")])) ∧
    hasKey [("error", Json.str "Unable to fetch flight data")] "message" = false ∧
    hasKey [("error", Json.str "Unable to fetch hotel data")] "message" = false := by
  refine ⟨?_, ?_, rfl, rfl⟩ <;>
    simp [search_flights, search_hotels, hco, flightResultDoc, hotelResultDoc,
      make_serpapi_request, hcred, flightShape, hotelShape, hfalsy]

/-- Witness for C9: the empty object `` {} ``. -/
theorem c9_falsy_document_fetch_error_witness :
    credFalsy (some "key") = false ∧
    (Json.obj []).isFalsy = true ∧
    hotelCoerce hInp = .ok hInp ∧
    search_flights fInp (some "key") (.success (.obj []))
      = Json.dumps (.obj [("error", .str "Unable to fetch flight data")]) ∧
    search_hotels hInp (some "key") (.success (.obj []))
      = .ok (Json.dumps (.obj [("error", .str "Unable to fetch hotel data")])) :=
  ⟨rfl, rfl, rfl,
   (c9_falsy_document_fetch_error fInp hInp hInp (some "key") (.obj []) rfl rfl rfl).1,
   (c9_falsy_document_fetch_error fInp hInp hInp (some "key") (.obj []) rfl rfl rfl).2.1⟩

/-- C10: Whenever the key `error` is present in the upstream document —
whatever its value, and even alongside non-empty `best_flights`,
`other_flights` or `properties` arrays — both tools serialize the document
unchanged and never return the result arrays. -/
theorem c10_error_key_passthrough (inp : FlightInput) (hin cin : HotelInput)
    (apiKey : Option String) (fields : List (String × Json))
    (hcred : credFalsy apiKey = false)
    (herr : hasKey fields "error" = true)
    (hco : hotelCoerce hin = .ok cin) :
    search_flights inp apiKey (.success (.obj fields)) = Json.dumps (.obj fields) ∧
    search_hotels hin apiKey (.success (.obj fields))
      = .ok (Json.dumps (.obj fields)) := by
  have hfne : fields ≠ [] := by
    intro hnil
    rw [hnil] at herr
    simp [hasKey] at herr
  have hobj : (Json.obj fields).isFalsy = false := by
    simp [Json.isFalsy, hfne]
  constructor <;>
    simp [search_flights, search_hotels, hco, flightResultDoc, hotelResultDoc,
      make_serpapi_request, hcred, flightShape, hotelShape, hobj,
      pyContainsStr, herr]

/-- Witness for C10: an `error` key with falsy value `null`, next to a
non-empty `best_flights` and a non-empty `properties` array — the whole
document is still passed through by both tools. -/
theorem c10_error_key_passthrough_witness :
    credFalsy (some "key") = false ∧
    hasKey [("error", Json.null), ("best_flights", .arr [.num 1]),
      ("properties", .arr [.num 2])] "error" = true ∧
    hotelCoerce hInp = .ok hInp ∧
    search_flights fInp (some "key")
        (.success (.obj [("error", Json.null), ("best_flights", .arr [.num 1]),
          ("properties", .arr [.num 2])]))
      = Json.dumps (.obj [("error", Json.null), ("best_flights", .arr [.num 1]),
          ("properties", .arr [.num 2])]) ∧
    search_hotels hInp (some "key")
        (.success (.obj [("error", Json.null), ("best_flights", .arr [.num 1]),
          ("properties", .arr [.num 2])]))
      = .ok (Json.dumps (.obj [("error", Json.null), ("best_flights", .arr [.num 1]),
          ("properties", .arr [.num 2])])) :=
  ⟨rfl, rfl, rfl,
   (c10_error_key_passthrough fInp hInp hInp (some "key")
      [("error", Json.null), ("best_flights", .arr [.num 1]),
       ("properties", .arr [.num 2])] rfl rfl rfl).1,
   (c10_error_key_passthrough fInp hInp hInp (some "key")
      [("error", Json.null), ("best_flights", .arr [.num 1]),
       ("properties", .arr [.num 2])] rfl rfl rfl).2⟩

end SerpApiTravel
